import Mathlib

/-!
Shallow embedding of the futures-alert bot (`main.py`) signal-evaluation,
gating, position-sizing and endpoint logic.  Prices, volumes and the
fear-greed index are modelled over `ℚ`/`ℤ`; the three network fetches are
modelled as explicit `Option` parameters (the value the fetch produced, or
`none` for any network/parse failure), so every function here is the pure
residue of the corresponding Python function.
-/

namespace FuturesBot

/-- One OHLCV bar of the pandas frame (`get_bars` result row).  `ts_hour_et`
is the US/Eastern hour of the bar's timestamp (`timestamp_et.dt.hour`), the
only part of the timestamp the strategy logic reads.  The `opn` column
(`open`) is carried for completeness; no evaluator reads it. -/
structure Bar where
  ts_hour_et : ℕ
  opn : ℚ
  high : ℚ
  low : ℚ
  close : ℚ
  volume : ℚ
  deriving DecidableEq, Repr

/-- Signal direction (`"long"` / `"short"` strings in the Python dicts). -/
inductive Direction
  | long
  | short
  deriving DecidableEq, Repr

/-- The dict returned by each strategy evaluator
(`{"type", "price", "stop", "strategy"}`). -/
structure Signal where
  type : Direction
  price : ℚ
  stop : ℚ
  strategy : String
  deriving DecidableEq, Repr

/-- The dict returned by `check_setup` on a trade. -/
structure Trade where
  symbol : String
  direction : Direction
  price : ℚ
  stop_dist : ℚ
  sentiment : ℤ
  strategy : String
  deriving DecidableEq, Repr

/-- Wall-clock time in US/Eastern, as read by `check_setup` /
`check_orb_setup` (`now_et.hour`, `now_et.minute`). -/
structure TimeET where
  hour : ℕ
  minute : ℕ
  deriving DecidableEq, Repr

/-- `ACCOUNT_SIZE = 25000` (main.py line 16). -/
def ACCOUNT_SIZE : ℚ := 25000

/-- `RISK_PERCENT = 0.01` (main.py line 17). -/
def RISK_PERCENT : ℚ := 1 / 100

/-- `POINT_VALUE = 2` (main.py line 23). -/
def POINT_VALUE : ℚ := 2

/-- `SYMBOL.replace("/", "")` for `SYMBOL = "/MNQ"` (main.py line 237). -/
def SYMBOL_NOSLASH : String := "MNQ"

/-- Column projection `df['close']`. -/
def closes (df : List Bar) : List ℚ := df.map Bar.close

/-- Column projection `df['high']`. -/
def highs (df : List Bar) : List ℚ := df.map Bar.high

/-- Column projection `df['low']`. -/
def lows (df : List Bar) : List ℚ := df.map Bar.low

/-- Column projection `df['volume']`. -/
def volumes (df : List Bar) : List ℚ := df.map Bar.volume

/-- `series.iloc[-1]` on a series the caller has checked nonempty. -/
def lastD (l : List ℚ) : ℚ := l.getLastD 0

/-- `series.iloc[-k]` (k-th element from the end) on a series the caller has
checked long enough. -/
def nth_from_end (l : List ℚ) (k : ℕ) : ℚ := l.getD (l.length - k) 0

/-- `series[-n:]` / `df.tail(n)`: the last `n` elements (all of them when
the series is shorter than `n`). -/
def tailN (n : ℕ) (l : List α) : List α := l.drop (l.length - n)

/-- `series.mean()` on a series the caller has checked nonempty. -/
def mean (l : List ℚ) : ℚ := l.sum / (l.length : ℚ)

/-- `series.max()` on a series the caller has checked nonempty. -/
def listMax : List ℚ → ℚ
  | [] => 0
  | [x] => x
  | x :: y :: t => max x (listMax (y :: t))

/-- `series.min()` on a series the caller has checked nonempty. -/
def listMin : List ℚ → ℚ
  | [] => 0
  | [x] => x
  | x :: y :: t => min x (listMin (y :: t))

/-- `calculate_vwap` (main.py lines 86-90): typical price `(h+l+c)/3`,
`(tp*volume).cumsum()/volume.cumsum()` evaluated at the last row, i.e. the
volume-weighted mean of typical prices over the whole frame.  When the total
volume is zero pandas produces `NaN` (every later comparison with it is
false); that case is modelled as `none`. -/
def calculate_vwap (df : List Bar) : Option ℚ :=
  let tv := (volumes df).sum
  if tv = 0 then none
  else some ((df.map (fun b => (b.high + b.low + b.close) / 3 * b.volume)).sum / tv)

/-- `check_orb_setup` (main.py lines 96-120). -/
def check_orb_setup (df : List Bar) (t : TimeET) : Option Signal :=
  if ¬ ((t.hour = 9 ∧ 30 ≤ t.minute) ∨ (t.hour = 10 ∧ t.minute = 0)) then none
  else
    let rth_bars := df.filter (fun b => decide (9 ≤ b.ts_hour_et))
    if rth_bars.length < 5 then none
    else
      let orb_bars := rth_bars.take 5
      let orb_high := listMax (highs orb_bars)
      let orb_low := listMin (lows orb_bars)
      let current_price := lastD (closes df)
      let current_vol := lastD (volumes df)
      let avg_vol := mean (tailN 20 (volumes df))
      if current_price > orb_high ∧ current_vol > avg_vol * (3 / 2) then
        some ⟨Direction.long, current_price, orb_low, "ORB"⟩
      else if current_price < orb_low ∧ current_vol > avg_vol * (3 / 2) then
        some ⟨Direction.short, current_price, orb_high, "ORB"⟩
      else none

/-- `check_vwap_pullback` (main.py lines 122-142).  With at least 30 bars
every index access succeeds, so the `try`/`except` is only live through
`calculate_vwap`'s NaN case, where comparisons with NaN are false. -/
def check_vwap_pullback (df : List Bar) : Option Signal :=
  if df.length < 30 then none
  else
    match calculate_vwap df with
    | none => none
    | some vwap =>
      let current_price := lastD (closes df)
      let prev_price := nth_from_end (closes df) 2
      let current_vol := lastD (volumes df)
      let avg_vol := mean (tailN 20 (volumes df))
      if nth_from_end (closes df) 5 > vwap ∧ current_price ≤ vwap ∧
          prev_price > vwap ∧ current_vol > avg_vol then
        some ⟨Direction.long, current_price, listMin (tailN 10 (lows df)), "VWAP"⟩
      else if nth_from_end (closes df) 5 < vwap ∧ current_price ≥ vwap ∧
          prev_price < vwap ∧ current_vol > avg_vol then
        some ⟨Direction.short, current_price, listMax (tailN 10 (highs df)), "VWAP"⟩
      else none

/-- `check_failed_auction` (main.py lines 144-160).  With at least 10 bars,
`df.tail(3)` has exactly three rows. -/
def check_failed_auction (df : List Bar) : Option Signal :=
  if df.length < 10 then none
  else
    match tailN 3 df with
    | [b0, b1, b2] =>
      if b0.close < b1.close ∧ b1.high > b0.high ∧ b2.close < b1.low then
        some ⟨Direction.short, b2.close, listMax [b0.high, b1.high, b2.high], "FailedAuction"⟩
      else if b0.close > b1.close ∧ b1.low < b0.low ∧ b2.close > b1.high then
        some ⟨Direction.long, b2.close, listMin [b0.low, b1.low, b2.low], "FailedAuction"⟩
      else none
    | _ => none

/-- `check_breakout` (main.py lines 162-177).  There is no length guard: on
an empty frame `recent['close'].iloc[-1]` raises `IndexError`, modelled as
`Except.error ()`. -/
def check_breakout (df : List Bar) : Except Unit (Option Signal) :=
  let recent := tailN 50 df
  if recent.isEmpty then Except.error ()
  else
    let current_price := lastD (closes recent)
    let current_vol := lastD (volumes recent)
    let avg_vol := mean (tailN 20 (volumes recent))
    let lookback := tailN 15 recent
    let recent_high := listMax (highs lookback)
    let recent_low := listMin (lows lookback)
    if current_price > recent_high ∧ current_vol > avg_vol * (3 / 2) then
      Except.ok (some ⟨Direction.long, current_price, recent_low, "Breakout"⟩)
    else if current_price < recent_low ∧ current_vol > avg_vol * (3 / 2) then
      Except.ok (some ⟨Direction.short, current_price, recent_high, "Breakout"⟩)
    else Except.ok none

/-- `if signal is None: signal = ...` chaining in `check_setup`. -/
def first_some (a b : Option Signal) : Option Signal :=
  match a with
  | some s => some s
  | none => b

/-- The strategy-selection part of `check_setup` (main.py lines 202-219):
ORB only when `9 <= now_et.hour <= 10`, then VWAP pullback, then failed
auction, then the generic breakout fallback.  A `check_breakout` exception
propagates (there is no `try` around it). -/
def pick_signal (df : List Bar) (now : TimeET) : Except Unit (Option Signal) :=
  let s1 := if 9 ≤ now.hour ∧ now.hour ≤ 10 then check_orb_setup df now else none
  let s2 := first_some s1 (check_vwap_pullback df)
  let s3 := first_some s2 (check_failed_auction df)
  match s3 with
  | some s => Except.ok (some s)
  | none => check_breakout df

/-- Python `round(x, 1)`: round to one decimal, ties to even. -/
def round_half_even (x : ℚ) : ℤ :=
  if x - (⌊x⌋ : ℚ) = 1 / 2 then (if 2 ∣ ⌊x⌋ then ⌊x⌋ else ⌊x⌋ + 1)
  else ⌊x + 1 / 2⌋

/-- `round(x, 1)`. -/
def round1 (x : ℚ) : ℚ := (round_half_even (10 * x) : ℚ) / 10

/-- `max(2, min(12, stop_dist))` (main.py line 234). -/
def clamp_stop (d : ℚ) : ℚ := max 2 (min 12 d)

/-- Sentiment veto plus trade construction (main.py lines 224-243): suppress
a long when the fear-greed index is below 20, a short when it is above 80;
otherwise build the trade dict with the clamped stop distance and the price
both rounded to one decimal. -/
def sentiment_and_size (fg : ℤ) (s : Signal) : Option Trade :=
  if s.type = Direction.long ∧ fg < 20 then none
  else if s.type = Direction.short ∧ fg > 80 then none
  else
    some { symbol := SYMBOL_NOSLASH
           direction := s.type
           price := round1 s.price
           stop_dist := round1 (clamp_stop |s.price - s.stop|)
           sentiment := fg
           strategy := s.strategy }

/-- `check_setup` (main.py lines 183-243) with its effects made explicit:
`closed` is `is_market_closed()`, `news` is `has_high_impact_news()`, `fg`
is `get_fear_greed_index()`, `bars` is `get_bars(SYMBOL, minutes=70)` and
`now` is the current US/Eastern time. -/
def check_setup (closed news : Bool) (fg : ℤ) (bars : Option (List Bar))
    (now : TimeET) : Except Unit (Option Trade) :=
  if closed then Except.ok none
  else if news then Except.ok none
  else
    match bars with
    | none => Except.ok none
    | some df =>
      if df.length < 20 then Except.ok none
      else
        match pick_signal df now with
        | Except.error e => Except.error e
        | Except.ok none => Except.ok none
        | Except.ok (some s) => Except.ok (sentiment_and_size fg s)

/-- Python `int(x)`: truncation toward zero. -/
def py_int (x : ℚ) : ℤ := if 0 ≤ x then ⌊x⌋ else -⌊-x⌋

/-- `risk_amount = ACCOUNT_SIZE * RISK_PERCENT` (main.py line 282). -/
def risk_amount : ℚ := ACCOUNT_SIZE * RISK_PERCENT

/-- The contract count computed and logged by `log_to_sheets`
(main.py lines 283-284): `max(1, int(risk_amount / (stop_dist * POINT_VALUE)))`. -/
def log_contracts (t : Trade) : ℤ :=
  max 1 (py_int (risk_amount / (t.stop_dist * POINT_VALUE)))

/-- One entry of the economic-calendar feed: `date` is the parsed scheduled
time in seconds (`none` when the `date` field is missing, falsy, or fails to
parse — all `continue`d by the loop), `impact` the impact tag. -/
structure CalEvent where
  date : Option ℤ
  impact : String
  deriving DecidableEq, Repr

/-- Loop body of `has_high_impact_news` (main.py lines 57-62): the event
fires the blackout iff it parses and `0 <= (event_time - now).total_seconds()
<= 900 and e.get('impact') == 'High'`. -/
def event_triggers (now : ℤ) (e : CalEvent) : Bool :=
  match e.date with
  | none => false
  | some t => decide (0 ≤ t - now) && decide (t - now ≤ 900) && (e.impact == "High")

/-- `has_high_impact_news` (main.py lines 51-65): `fetched` is the parsed
feed, `none` on any network/JSON failure (the bare `except` returns
`False`). -/
def has_high_impact_news (fetched : Option (List CalEvent)) (now : ℤ) : Bool :=
  match fetched with
  | none => false
  | some events => events.any (event_triggers now)

/-- `get_fear_greed_index` (main.py lines 67-73): the parsed integer, or the
neutral 50 on any failure. -/
def get_fear_greed_index (fetched : Option ℤ) : ℤ :=
  match fetched with
  | none => 50
  | some v => v

/-- `get_bars` (main.py lines 32-49): `none` on any Alpaca error and when the
provider returns an empty frame. -/
def get_bars (fetched : Option (List Bar)) : Option (List Bar) :=
  match fetched with
  | none => none
  | some bs => if bs.isEmpty then none else some bs

/-- Whether `scan_and_alert` (main.py lines 303-311) dispatches the Discord
alert and the sheets row: it does exactly when `check_setup` returns a
trade. -/
def scan_sends_alert (closed news : Bool) (fg : ℤ) (bars : Option (List Bar))
    (now : TimeET) : Bool :=
  match check_setup closed news fg bars now with
  | Except.ok (some _) => true
  | _ => false

/-- Body of the HTTP response of the `/trigger` endpoint. -/
inductive RespBody
  | tradeJson (t : Trade)
  | noSignal
  | serverError
  deriving DecidableEq, Repr

/-- An HTTP response: status code and body. -/
structure HttpResponse where
  status : ℕ
  body : RespBody
  deriving DecidableEq, Repr

/-- `manual_trigger` (main.py lines 324-331): the handler never reads the
request body (`reqBody`); it runs `check_setup` once and returns
`jsonify(trade)` or `jsonify({"status": "no_signal"})`, both HTTP 200.  An
uncaught exception from the pipeline would surface as Flask's 500. -/
def manual_trigger (reqBody : Option String) (closed news : Bool) (fg : ℤ)
    (bars : Option (List Bar)) (now : TimeET) : HttpResponse :=
  match check_setup closed news fg bars now with
  | Except.ok (some t) => ⟨200, RespBody.tradeJson t⟩
  | Except.ok none => ⟨200, RespBody.noSignal⟩
  | Except.error _ => ⟨500, RespBody.serverError⟩

/-- Rendering of claim C3's wording of the long condition of the VWAP
pullback, for comparison with `check_vwap_pullback`: "the close 5 bars ago
is above the running VWAP, the prior bar's close dipped to or below the
VWAP, and the current bar's volume exceeds the trailing 20-bar average". -/
def vwap_long_per_claim (df : List Bar) : Bool :=
  match calculate_vwap df with
  | none => false
  | some vwap =>
    decide (nth_from_end (closes df) 5 > vwap) &&
    decide (nth_from_end (closes df) 2 ≤ vwap) &&
    decide (lastD (volumes df) > mean (tailN 20 (volumes df)))

/-- A `Bar` with all fields zero, the irrelevant `List.getLastD` default. -/
def dummyBar : Bar := ⟨0, 0, 0, 0, 0, 0⟩

/-- The last row of a frame the caller has checked nonempty. -/
def last_bar (l : List Bar) : Bar := l.getLastD dummyBar

/-- Filler bar of the synthetic windows (typical OHLCV row). -/
def barA : Bar := ⟨9, 3, 5, 1, 3, 9⟩

/-- Final bar of `win20`: its close 10 breaks the 15-bar high 5 and its
volume 19 is exactly twice the 20-bar mean volume 19/2. -/
def barB : Bar := ⟨9, 3, 4, 1, 10, 19⟩

/-- A synthetic 20-bar window matching claim C6's premise. -/
def win20 : List Bar :=
  [barA, barA, barA, barA, barA, barA, barA, barA, barA, barA,
   barA, barA, barA, barA, barA, barA, barA, barA, barA, barB]

/-- The breakout signal produced on `win20`. -/
def sigBrk : Signal := ⟨Direction.long, 10, 1, "Breakout"⟩

/-- Zero-volume variant of `barA`. -/
def barZ : Bar := ⟨9, 3, 5, 1, 3, 0⟩

/-- Zero-volume variant of `barB`. -/
def barZB : Bar := ⟨9, 3, 4, 1, 10, 0⟩

/-- A 20-bar window with all volumes zero: the last volume is (vacuously)
twice the mean volume and the close still breaks the lookback high. -/
def win20Z : List Bar :=
  [barZ, barZ, barZ, barZ, barZ, barZ, barZ, barZ, barZ, barZ,
   barZ, barZ, barZ, barZ, barZ, barZ, barZ, barZ, barZ, barZB]

/-- Base bar of the 30-bar VWAP windows; every bar of those windows has
typical price (high+low+close)/3 = 100, so the VWAP is exactly 100. -/
def baseBar : Bar := ⟨9, 100, 110, 90, 100, 1⟩

/-- Bar with close 106 above the VWAP of 100 (typical price still 100). -/
def barC26 : Bar := ⟨9, 100, 110, 84, 106, 1⟩

/-- Bar with close 95 at/below the VWAP of 100 (typical price still 100). -/
def barC29x : Bar := ⟨9, 100, 110, 95, 95, 1⟩

/-- Final bar of `dfC3`: close 105 above the VWAP, volume 5 above the
trailing average 6/5. -/
def barC30x : Bar := ⟨9, 100, 110, 85, 105, 5⟩

/-- 30-bar window on which claim C3's wording predicts a long signal (close
5 bars back 106 > VWAP 100, prior close 95 ≤ 100, last volume 5 above the
trailing average) but the evaluator returns none: the code instead demands
the current close at/below the VWAP with the prior close above it. -/
def dfC3 : List Bar :=
  [baseBar, baseBar, baseBar, baseBar, baseBar, baseBar, baseBar, baseBar, baseBar, baseBar,
   baseBar, baseBar, baseBar, baseBar, baseBar, baseBar, baseBar, baseBar, baseBar, baseBar,
   baseBar, baseBar, baseBar, baseBar, baseBar, barC26, baseBar, baseBar, barC29x, barC30x]

/-- Final bar of `dfC3w`: close 95 at/below the VWAP, volume 5. -/
def barC30w : Bar := ⟨9, 100, 110, 95, 95, 5⟩

/-- 30-bar window on which the evaluator does fire long: close 5 bars back
106 > VWAP 100, current close 95 ≤ 100, prior close 106 > 100, volume 5
above the trailing average. -/
def dfC3w : List Bar :=
  [baseBar, baseBar, baseBar, baseBar, baseBar, baseBar, baseBar, baseBar, baseBar, baseBar,
   baseBar, baseBar, baseBar, baseBar, baseBar, baseBar, baseBar, baseBar, baseBar, baseBar,
   baseBar, baseBar, baseBar, baseBar, baseBar, barC26, baseBar, baseBar, barC26, barC30w]

/-- Signal with stop distance |100 - 97.46| = 2.54 points. -/
def sC1 : Signal := ⟨Direction.long, 100, 4873 / 50, "Breakout"⟩

/-- The trade `check_setup` builds from `sC1` at sentiment 50: the stop
distance is rounded from 2.54 to 2.5. -/
def tC1 : Trade := ⟨"MNQ", Direction.long, 100, 5 / 2, 50, "Breakout"⟩

theorem getLastD_congr {α : Type} (l : List α) (d d' : α) (h : l ≠ []) :
    l.getLastD d = l.getLastD d' := by
  rw [List.getLastD_eq_getLast?, List.getLastD_eq_getLast?,
    List.getLast?_eq_getLast_of_ne_nil h]
  rfl

theorem getLastD_mem {α : Type} (l : List α) (d : α) (h : l ≠ []) :
    l.getLastD d ∈ l := by
  rw [List.getLastD_eq_getLast?, List.getLast?_eq_getLast_of_ne_nil h]
  exact List.getLast_mem h

theorem getLastD_drop {α : Type} (k : ℕ) (l : List α) (d : α) (h : k < l.length) :
    (l.drop k).getLastD d = l.getLastD d := by
  induction k generalizing l with
  | zero => rfl
  | succ n ih =>
    cases l with
    | nil => simp at h
    | cons a t =>
      have ht : n < t.length := by simpa using h
      have htne : t ≠ [] := by
        intro he
        rw [he] at ht
        simp at ht
      calc ((a :: t).drop (n + 1)).getLastD d = (t.drop n).getLastD d := rfl
        _ = t.getLastD d := ih t ht
        _ = t.getLastD a := getLastD_congr t d a htne
        _ = (a :: t).getLastD d := (List.getLastD_cons ..).symm

theorem length_tailN {α : Type} (n : ℕ) (l : List α) :
    (tailN n l).length = min n l.length := by
  unfold tailN
  rw [List.length_drop]
  omega

theorem tailN_ne_nil {α : Type} {n : ℕ} {l : List α} (hn : 1 ≤ n) (hl : l ≠ []) :
    tailN n l ≠ [] := by
  intro h
  have h1 : (tailN n l).length = 0 := by rw [h]; rfl
  rw [length_tailN] at h1
  have h2 : l.length ≠ 0 := fun he => hl (List.length_eq_zero.mp he)
  omega

theorem tailN_subset {α : Type} (n : ℕ) (l : List α) : tailN n l ⊆ l :=
  List.drop_subset _ _

theorem last_bar_tailN (n : ℕ) (l : List Bar) (hn : 1 ≤ n) (hl : l ≠ []) :
    last_bar (tailN n l) = last_bar l := by
  unfold last_bar tailN
  apply getLastD_drop
  have : l.length ≠ 0 := by simpa [List.length_eq_zero] using hl
  omega

theorem lastD_closes (l : List Bar) (h : l ≠ []) :
    lastD (closes l) = (last_bar l).close := by
  induction l with
  | nil => exact absurd rfl h
  | cons a t ih =>
    cases t with
    | nil => simp [lastD, closes, last_bar, List.getLastD]
    | cons b t' =>
      have hne : (b :: t' : List Bar) ≠ [] := by simp
      calc lastD (closes (a :: b :: t'))
          = (closes (b :: t')).getLastD a.close := by
            show (a.close :: closes (b :: t')).getLastD 0 = _
            rw [List.getLastD_cons]
        _ = (closes (b :: t')).getLastD 0 := getLastD_congr _ _ _ (by simp [closes])
        _ = (last_bar (b :: t')).close := ih hne
        _ = (last_bar (a :: b :: t')).close := by
            unfold last_bar
            conv_rhs => rw [List.getLastD_cons]
            exact congrArg Bar.close (getLastD_congr _ _ _ hne)

theorem le_listMax {a : ℚ} {l : List ℚ} (h : a ∈ l) : a ≤ listMax l := by
  induction l with
  | nil => simp at h
  | cons x t ih =>
    cases t with
    | nil =>
      simp at h
      simp [listMax, h]
    | cons y t' =>
      simp only [listMax]
      rcases List.mem_cons.mp h with h1 | h2
      · subst h1
        exact le_max_left _ _
      · exact le_trans (ih h2) (le_max_right _ _)

theorem listMin_le {a : ℚ} {l : List ℚ} (h : a ∈ l) : listMin l ≤ a := by
  induction l with
  | nil => simp at h
  | cons x t ih =>
    cases t with
    | nil =>
      simp at h
      simp [listMin, h]
    | cons y t' =>
      simp only [listMin]
      rcases List.mem_cons.mp h with h1 | h2
      · subst h1
        exact min_le_left _ _
      · exact le_trans (min_le_right _ _) (ih h2)

/-- Claim C2 (counterexample): on the empty bar window, `check_breakout`
does not return null — `recent['close'].iloc[-1]` raises `IndexError`
(there is no length guard in `check_breakout`). -/
theorem claim2_counterexample : check_breakout ([] : List Bar) = Except.error () := rfl

/-- Claim C2 (amended): for bar windows shorter than each guard's minimum,
the three guarded evaluators (`check_orb_setup`, `check_vwap_pullback`,
`check_failed_auction`) return null and the pipeline `check_setup` returns
no-signal with no exception; `check_breakout`, which has no guard, is
excluded (it raises on the empty window). -/
theorem claim2_short_window_null (df : List Bar) (now : TimeET)
    (closed news : Bool) (fg : ℤ) :
    (df.length < 5 → check_orb_setup df now = none)
  ∧ (df.length < 30 → check_vwap_pullback df = none)
  ∧ (df.length < 10 → check_failed_auction df = none)
  ∧ (df.length < 20 → check_setup closed news fg (some df) now = Except.ok none) := by
  refine ⟨?_, ?_, ?_, ?_⟩
  · intro h5
    have hrth : (df.filter (fun b => decide (9 ≤ b.ts_hour_et))).length < 5 :=
      lt_of_le_of_lt (List.length_filter_le _ _) h5
    simp [check_orb_setup, hrth]
  · intro h
    simp [check_vwap_pullback, h]
  · intro h
    simp [check_failed_auction, h]
  · intro h
    cases closed <;> cases news <;> simp [check_setup, h]

/-- Claim C2 (witness): all four conjuncts at the empty window. -/
theorem claim2_short_window_null_witness :
    check_orb_setup [] ⟨9, 30⟩ = none ∧ check_vwap_pullback [] = none ∧
    check_failed_auction [] = none ∧
    check_setup false false 50 (some []) ⟨9, 30⟩ = Except.ok none := by
  have h := claim2_short_window_null [] ⟨9, 30⟩ false false 50
  exact ⟨h.1 (by decide), h.2.1 (by decide), h.2.2.1 (by decide), h.2.2.2 (by decide)⟩

/-- Claim C5: the blackout gate returns true iff some fetched event tagged
high-impact is scheduled within `[now, now + 900s]`; an event at exactly
`now + 900` is included, one at `now + 901` excluded. -/
theorem claim5_blackout_window (events : List CalEvent) (now : ℤ) :
    (has_high_impact_news (some events) now = true ↔
      ∃ e ∈ events, e.impact = "High" ∧
        ∃ t, e.date = some t ∧ 0 ≤ t - now ∧ t - now ≤ 900)
  ∧ has_high_impact_news (some [⟨some (now + 900), "High"⟩]) now = true
  ∧ has_high_impact_news (some [⟨some (now + 901), "High"⟩]) now = false := by
  refine ⟨?_, ?_, ?_⟩
  · simp only [has_high_impact_news, List.any_eq_true]
    constructor
    · rintro ⟨e, he, ht⟩
      refine ⟨e, he, ?_⟩
      cases hd : e.date with
      | none =>
        rw [event_triggers, hd] at ht
        simp at ht
      | some t0 =>
        rw [event_triggers, hd] at ht
        simp only [Bool.and_eq_true, decide_eq_true_eq, beq_iff_eq] at ht
        exact ⟨ht.2, t0, rfl, ht.1.1, ht.1.2⟩
    · rintro ⟨e, he, himp, t0, hd, h1, h2⟩
      refine ⟨e, he, ?_⟩
      rw [event_triggers, hd]
      simp [himp, h1, h2]
  · have h1 : (0 : ℤ) ≤ now + 900 - now := by omega
    have h2 : now + 900 - now ≤ 900 := by omega
    simp [has_high_impact_news, event_triggers, h1, h2]
  · have h2 : ¬ (now + 901 - now ≤ 900) := by omega
    simp [has_high_impact_news, event_triggers, h2]

/-- Claim C9: each failed fetch yields its documented safe default — no
blackout, neutral sentiment 50, no bar data — and a failed (or empty) bar
fetch makes the pipeline return no-signal, so the scan sends no alert. -/
theorem claim9_fail_open_defaults (now : ℤ) (closed news : Bool) (fg : ℤ)
    (t : TimeET) :
    has_high_impact_news none now = false
  ∧ get_fear_greed_index none = 50
  ∧ get_bars none = none
  ∧ check_setup closed news fg (get_bars none) t = Except.ok none
  ∧ scan_sends_alert closed news fg (get_bars none) t = false := by
  refine ⟨rfl, rfl, rfl, ?_, ?_⟩
  · cases closed <;> cases news <;> rfl
  · cases closed <;> cases news <;> rfl

theorem check_breakout_ok (df : List Bar) (h : df ≠ []) :
    ∃ o, check_breakout df = Except.ok o := by
  have hne : tailN 50 df ≠ [] := tailN_ne_nil (by norm_num) h
  have hemp : (tailN 50 df).isEmpty = false := by
    cases htl : tailN 50 df with
    | nil => exact absurd htl hne
    | cons a t => rfl
  simp only [check_breakout, hemp, Bool.false_eq_true, if_false]
  split_ifs <;> exact ⟨_, rfl⟩

theorem pick_signal_ok (df : List Bar) (now : TimeET) (h : df ≠ []) :
    ∃ o, pick_signal df now = Except.ok o := by
  obtain ⟨o, ho⟩ := check_breakout_ok df h
  simp only [pick_signal]
  cases hsel : first_some
      (first_some (if 9 ≤ now.hour ∧ now.hour ≤ 10 then check_orb_setup df now else none)
        (check_vwap_pullback df))
      (check_failed_auction df) with
  | some s => exact ⟨some s, rfl⟩
  | none => exact ⟨o, ho⟩

theorem check_setup_ok (closed news : Bool) (fg : ℤ) (bars : Option (List Bar))
    (now : TimeET) :
    ∃ r, check_setup closed news fg bars now = Except.ok r := by
  cases closed with
  | true => exact ⟨none, rfl⟩
  | false =>
    cases news with
    | true => exact ⟨none, rfl⟩
    | false =>
      cases bars with
      | none => exact ⟨none, rfl⟩
      | some df =>
        by_cases hlen : df.length < 20
        · exact ⟨none, by simp [check_setup, hlen]⟩
        · have hne : df ≠ [] := by
            intro he
            rw [he] at hlen
            simp at hlen
          obtain ⟨o, ho⟩ := pick_signal_ok df now hne
          cases o with
          | none => exact ⟨none, by simp [check_setup, hlen, ho]⟩
          | some s => exact ⟨sentiment_and_size fg s, by simp [check_setup, hlen, ho]⟩

/-- Claim C10 (counterexample): a POST with a malformed body is not rejected
with a 4xx error — the handler never reads the body, runs the pipeline, and
returns the 200 no-signal response. -/
theorem claim10_counterexample :
    manual_trigger (some "this is not json") false false 50 none ⟨12, 0⟩ =
      ⟨200, RespBody.noSignal⟩
  ∧ ¬ (400 ≤ (manual_trigger (some "this is not json") false false 50 none ⟨12, 0⟩).status
        ∧ (manual_trigger (some "this is not json") false false 50 none ⟨12, 0⟩).status < 500) :=
  ⟨rfl, by decide⟩

/-- Claim C10 (amended): the `/trigger` handler ignores the request body
entirely — any two bodies give the same response — and always answers with
status 200 (the pipeline's trade JSON or the no-signal status); there is no
malformed-request 4xx path. -/
theorem claim10_trigger_ignores_body (b b' : Option String) (closed news : Bool)
    (fg : ℤ) (bars : Option (List Bar)) (now : TimeET) :
    manual_trigger b closed news fg bars now = manual_trigger b' closed news fg bars now
  ∧ (manual_trigger b closed news fg bars now).status = 200 := by
  refine ⟨rfl, ?_⟩
  obtain ⟨r, hr⟩ := check_setup_ok closed news fg bars now
  cases r with
  | none => simp [manual_trigger, hr]
  | some t => simp [manual_trigger, hr]

theorem le_round_half_even (n : ℤ) (y : ℚ) (h : (n : ℚ) ≤ y) :
    n ≤ round_half_even y := by
  unfold round_half_even
  split_ifs with h1 h2
  · exact Int.le_floor.mpr h
  · have h3 : n ≤ ⌊y⌋ := Int.le_floor.mpr h
    omega
  · exact Int.le_floor.mpr (by linarith)

theorem round1_ge_two {x : ℚ} (h : 2 ≤ x) : 2 ≤ round1 x := by
  unfold round1
  have h20 : ((20 : ℤ) : ℚ) ≤ 10 * x := by
    push_cast
    linarith
  have h2 := le_round_half_even 20 (10 * x) h20
  have h3 : ((20 : ℤ) : ℚ) ≤ (round_half_even (10 * x) : ℚ) := by exact_mod_cast h2
  push_cast at h3
  linarith

theorem round1_eq_of_ne_half (x : ℚ)
    (hne : 10 * x - (⌊10 * x⌋ : ℚ) ≠ 1 / 2) :
    round1 x = (⌊10 * x + 1 / 2⌋ : ℚ) / 10 := by
  unfold round1 round_half_even
  rw [if_neg hne]

theorem round1_two : round1 (2 : ℚ) = 2 := by
  rw [round1_eq_of_ne_half]
  · norm_num
  · have hf : ⌊(10 : ℚ) * 2⌋ = 20 := by norm_num
    rw [hf]
    norm_num

theorem round1_twelve : round1 (12 : ℚ) = 12 := by
  rw [round1_eq_of_ne_half]
  · norm_num
  · have hf : ⌊(10 : ℚ) * 12⌋ = 120 := by norm_num
    rw [hf]
    norm_num

theorem round1_hundred : round1 (100 : ℚ) = 100 := by
  rw [round1_eq_of_ne_half]
  · norm_num
  · have hf : ⌊(10 : ℚ) * 100⌋ = 1000 := by norm_num
    rw [hf]
    norm_num

theorem round1_cex_dist : round1 (127 / 50 : ℚ) = 5 / 2 := by
  rw [round1_eq_of_ne_half]
  · norm_num
  · have hf : ⌊(10 : ℚ) * (127 / 50)⌋ = 25 := by norm_num
    rw [hf]
    norm_num

theorem abs_cex_dist : |sC1.price - sC1.stop| = 127 / 50 := by
  show |(100 : ℚ) - 4873 / 50| = 127 / 50
  rw [abs_of_nonneg] <;> norm_num

theorem clamp_cex_dist : clamp_stop (127 / 50 : ℚ) = 127 / 50 := by
  unfold clamp_stop
  rw [min_eq_right (by norm_num), max_eq_right (by norm_num)]

theorem cex_trade_eq : sentiment_and_size 50 sC1 = some tC1 := by
  unfold sentiment_and_size
  rw [if_neg (by simp), if_neg (by simp), abs_cex_dist, clamp_cex_dist, round1_cex_dist]
  show some ⟨SYMBOL_NOSLASH, sC1.type, round1 sC1.price, 5 / 2, 50, sC1.strategy⟩ = some tC1
  rw [SYMBOL_NOSLASH, tC1, sC1, round1_hundred]

/-- Claim C1 (amended): the contract count logged by `log_to_sheets` is
`max(1, floor(risk_amount / (round1(clamp(d)) · point_value)))` — the
clamped stop distance is additionally rounded to one decimal (Python
`round(x, 1)`) before sizing — and at the exact clamp boundaries
(d ≤ 2 or 12 ≤ d, where the clamp yields exactly 2 or 12) the claim's
original formula `max(1, floor(risk_amount / (clamp(d) · point_value)))`
does hold. -/
theorem claim1_sizing_rounded (fg : ℤ) (s : Signal) (t : Trade)
    (h : sentiment_and_size fg s = some t) :
    log_contracts t =
      max 1 ⌊risk_amount / (round1 (clamp_stop |s.price - s.stop|) * POINT_VALUE)⌋
  ∧ (|s.price - s.stop| ≤ 2 ∨ 12 ≤ |s.price - s.stop| →
      log_contracts t =
        max 1 ⌊risk_amount / (clamp_stop |s.price - s.stop| * POINT_VALUE)⌋) := by
  have hsd : t.stop_dist = round1 (clamp_stop |s.price - s.stop|) := by
    unfold sentiment_and_size at h
    split_ifs at h
    simp only [Option.some.injEq] at h
    rw [← h]
  have h2c : (2 : ℚ) ≤ clamp_stop |s.price - s.stop| := le_max_left _ _
  have h2r : (2 : ℚ) ≤ round1 (clamp_stop |s.price - s.stop|) := round1_ge_two h2c
  have hq : 0 ≤ risk_amount / (round1 (clamp_stop |s.price - s.stop|) * POINT_VALUE) := by
    apply div_nonneg
    · norm_num [risk_amount, ACCOUNT_SIZE, RISK_PERCENT]
    · have hpv : (0 : ℚ) ≤ POINT_VALUE := by norm_num [POINT_VALUE]
      nlinarith
  have hmain : log_contracts t =
      max 1 ⌊risk_amount / (round1 (clamp_stop |s.price - s.stop|) * POINT_VALUE)⌋ := by
    unfold log_contracts py_int
    rw [hsd, if_pos hq]
  refine ⟨hmain, fun hb => ?_⟩
  have heq : round1 (clamp_stop |s.price - s.stop|) = clamp_stop |s.price - s.stop| := by
    rcases hb with hb | hb
    · have hcl : clamp_stop |s.price - s.stop| = 2 := by
        unfold clamp_stop
        rw [min_eq_right (le_trans hb (by norm_num)), max_eq_left hb]
      rw [hcl, round1_two]
    · have hcl : clamp_stop |s.price - s.stop| = 12 := by
        unfold clamp_stop
        rw [min_eq_left hb]
        exact max_eq_right (by norm_num)
      rw [hcl, round1_twelve]
  rw [hmain, heq]

/-- Claim C1 (counterexample): at stop distance 2.54 (entry 100, stop
97.46), inside the clamp range, the code logs
`max(1, floor(250 / (2.5 · 2))) = 50` — it sizes with the one-decimal
rounded distance — while the claim's formula gives
`max(1, floor(250 / (2.54 · 2))) = 49`. -/
theorem claim1_counterexample :
    (sentiment_and_size 50 sC1).map log_contracts = some 50
  ∧ max 1 ⌊risk_amount / (clamp_stop |sC1.price - sC1.stop| * POINT_VALUE)⌋ = 49 := by
  have hlog : log_contracts tC1 = 50 := by
    unfold log_contracts py_int
    have hv : risk_amount / (tC1.stop_dist * POINT_VALUE) = 50 := by
      show (ACCOUNT_SIZE * RISK_PERCENT) / ((5 / 2 : ℚ) * POINT_VALUE) = 50
      rw [ACCOUNT_SIZE, RISK_PERCENT, POINT_VALUE]
      norm_num
    rw [hv, if_pos (by norm_num)]
    norm_num [max_def]
  constructor
  · rw [cex_trade_eq, Option.map_some', hlog]
  · rw [abs_cex_dist, clamp_cex_dist]
    have hv : risk_amount / ((127 / 50 : ℚ) * POINT_VALUE) = 6250 / 127 := by
      rw [risk_amount, ACCOUNT_SIZE, RISK_PERCENT, POINT_VALUE]
      norm_num
    rw [hv]
    have hf : ⌊(6250 / 127 : ℚ)⌋ = 49 := by norm_num
    rw [hf]
    norm_num [max_def]

/-- Claim C1 (witness): the amended theorem instantiated at the signal with
stop distance 2.54 and neutral sentiment 50. -/
theorem claim1_sizing_rounded_witness :
    sentiment_and_size 50 sC1 = some tC1 ∧
    log_contracts tC1 =
      max 1 ⌊risk_amount / (round1 (clamp_stop |sC1.price - sC1.stop|) * POINT_VALUE)⌋ :=
  ⟨cex_trade_eq, (claim1_sizing_rounded 50 sC1 tC1 cex_trade_eq).1⟩

/-- Claim C6 (amended): for every 20-bar window whose mean volume is
positive, if the last close strictly exceeds the 15-bar lookback high
(bars 6-20) and the last volume is twice the 20-bar mean volume, the
generic breakout returns a long signal at the last close with stop equal to
the 15-bar lookback low.  (With zero mean volume the volume filter
`v > 1.5·avg` fails, so positivity is required.) -/
theorem claim6_breakout_long (df : List Bar) (h20 : df.length = 20)
    (hclose : lastD (closes df) > listMax (highs (tailN 15 df)))
    (hvol : lastD (volumes df) = 2 * mean (volumes df))
    (hmean : 0 < mean (volumes df)) :
    check_breakout df =
      Except.ok (some ⟨Direction.long, lastD (closes df),
        listMin (lows (tailN 15 df)), "Breakout"⟩) := by
  have hne : df ≠ [] := by
    intro he
    rw [he] at h20
    simp at h20
  have hr : tailN 50 df = df := by
    unfold tailN
    rw [h20]
    simp
  have hemp : (tailN 50 df).isEmpty = false := by
    rw [hr]
    cases df with
    | nil => exact absurd rfl hne
    | cons a t => rfl
  have hv20 : tailN 20 (volumes df) = volumes df := by
    unfold tailN
    have hlv : (volumes df).length = 20 := by simp [volumes, h20]
    rw [hlv]
    simp
  have hcond : lastD (closes (tailN 50 df)) > listMax (highs (tailN 15 (tailN 50 df))) ∧
      lastD (volumes (tailN 50 df)) > mean (tailN 20 (volumes (tailN 50 df))) * (3 / 2) := by
    rw [hr]
    refine ⟨hclose, ?_⟩
    rw [hv20, hvol]
    linarith
  simp only [check_breakout, hemp, Bool.false_eq_true, if_false]
  rw [if_pos hcond, hr]

/-- Claim C6 (counterexample): on the all-zero-volume window `win20Z` the
claim's premises hold — the last close 10 exceeds the 15-bar lookback high 5
and the last volume 0 equals twice the mean volume 0 — yet the evaluator
returns no signal, because `0 > 1.5 · 0` is false. -/
theorem claim6_counterexample :
    lastD (closes win20Z) > listMax (highs (tailN 15 win20Z))
  ∧ lastD (volumes win20Z) = 2 * mean (volumes win20Z)
  ∧ check_breakout win20Z = Except.ok none := by
  refine ⟨?_, ?_, ?_⟩
  · norm_num [win20Z, barZ, barZB, lastD, closes, highs, tailN, listMax]
  · norm_num [win20Z, barZ, barZB, lastD, volumes, mean]
  · norm_num [win20Z, barZ, barZB, check_breakout, tailN, lastD, closes, volumes, highs,
      lows, mean, listMax, listMin]

/-- Claim C6 (witness): the synthetic window `win20` satisfies the amended
premises and produces the long breakout signal. -/
theorem claim6_breakout_long_witness :
    check_breakout win20 =
      Except.ok (some ⟨Direction.long, lastD (closes win20),
        listMin (lows (tailN 15 win20)), "Breakout"⟩) := by
  apply claim6_breakout_long win20
  · norm_num [win20]
  · norm_num [win20, barA, barB, lastD, closes, highs, tailN, listMax]
  · norm_num [win20, barA, barB, lastD, volumes, mean]
  · norm_num [win20, barA, barB, volumes, mean]

/-- Claim C7: on every nonempty window of well-formed bars
(low ≤ close ≤ high), the generic breakout returns null: the 15-bar
lookback includes the latest bar itself, so the latest close can neither
strictly exceed the lookback high nor fall strictly below the lookback
low. -/
theorem claim7_breakout_never_fires (df : List Bar) (hne : df ≠ [])
    (hwf : ∀ b ∈ df, b.low ≤ b.close ∧ b.close ≤ b.high) :
    check_breakout df = Except.ok none := by
  have hrne : tailN 50 df ≠ [] := tailN_ne_nil (by norm_num) hne
  have hemp : (tailN 50 df).isEmpty = false := by
    cases htl : tailN 50 df with
    | nil => exact absurd htl hrne
    | cons a t => rfl
  have hlbne : tailN 15 (tailN 50 df) ≠ [] := tailN_ne_nil (by norm_num) hrne
  have hlast : last_bar (tailN 15 (tailN 50 df)) = last_bar (tailN 50 df) :=
    last_bar_tailN 15 _ (by norm_num) hrne
  have hmem_lb : last_bar (tailN 50 df) ∈ tailN 15 (tailN 50 df) := by
    rw [← hlast]
    exact getLastD_mem _ _ hlbne
  have hmem_df : last_bar (tailN 50 df) ∈ df :=
    tailN_subset 50 df (getLastD_mem _ _ hrne)
  obtain ⟨hlo, hhi⟩ := hwf _ hmem_df
  have hcp : lastD (closes (tailN 50 df)) = (last_bar (tailN 50 df)).close :=
    lastD_closes _ hrne
  have hmax : (last_bar (tailN 50 df)).high ≤ listMax (highs (tailN 15 (tailN 50 df))) :=
    le_listMax (List.mem_map_of_mem Bar.high hmem_lb)
  have hmin : listMin (lows (tailN 15 (tailN 50 df))) ≤ (last_bar (tailN 50 df)).low :=
    listMin_le (List.mem_map_of_mem Bar.low hmem_lb)
  have hc1 : ¬ (lastD (closes (tailN 50 df)) > listMax (highs (tailN 15 (tailN 50 df)))) := by
    rw [hcp]
    exact not_lt.mpr (le_trans hhi hmax)
  have hc2 : ¬ (lastD (closes (tailN 50 df)) < listMin (lows (tailN 15 (tailN 50 df)))) := by
    rw [hcp]
    exact not_lt.mpr (le_trans hmin hlo)
  simp only [check_breakout, hemp, Bool.false_eq_true, if_false]
  rw [if_neg (fun hc => hc1 hc.1), if_neg (fun hc => hc2 hc.1)]

/-- Claim C7 (witness): a well-formed single-bar window. -/
theorem claim7_breakout_never_fires_witness : check_breakout [barA] = Except.ok none := by
  apply claim7_breakout_never_fires [barA]
  · simp
  · intro b hb
    rw [List.mem_singleton] at hb
    rw [hb, barA]
    norm_num

/-- Claim C8: the strategies are consulted in the fixed order ORB (only when
the ET hour is in [9, 10]), VWAP pullback, failed auction, generic breakout;
the first non-null evaluator determines the selection, later evaluators
cannot affect it, and outside the opening hours the selection does not
depend on the clock at all. -/
theorem claim8_priority_order (df : List Bar) (now now2 : TimeET) :
    (∀ s, (if 9 ≤ now.hour ∧ now.hour ≤ 10 then check_orb_setup df now else none) = some s →
        pick_signal df now = Except.ok (some s))
  ∧ (∀ s, (if 9 ≤ now.hour ∧ now.hour ≤ 10 then check_orb_setup df now else none) = none →
        check_vwap_pullback df = some s → pick_signal df now = Except.ok (some s))
  ∧ (∀ s, (if 9 ≤ now.hour ∧ now.hour ≤ 10 then check_orb_setup df now else none) = none →
        check_vwap_pullback df = none → check_failed_auction df = some s →
        pick_signal df now = Except.ok (some s))
  ∧ ((if 9 ≤ now.hour ∧ now.hour ≤ 10 then check_orb_setup df now else none) = none →
        check_vwap_pullback df = none → check_failed_auction df = none →
        pick_signal df now = check_breakout df)
  ∧ (¬ (9 ≤ now.hour ∧ now.hour ≤ 10) → ¬ (9 ≤ now2.hour ∧ now2.hour ≤ 10) →
        pick_signal df now = pick_signal df now2) := by
  refine ⟨?_, ?_, ?_, ?_, ?_⟩
  · intro s h1
    simp [pick_signal, first_some, h1]
  · intro s h1 h2
    simp [pick_signal, first_some, h1, h2]
  · intro s h1 h2 h3
    simp [pick_signal, first_some, h1, h2, h3]
  · intro h1 h2 h3
    simp [pick_signal, first_some, h1, h2, h3]
  · intro h1 h2
    simp [pick_signal, first_some, h1, h2]

/-- Claim C8 (witness): at noon on `win20` the first three evaluators are
null, so the selection is the generic breakout's result. -/
theorem claim8_priority_order_witness :
    pick_signal win20 ⟨12, 0⟩ = check_breakout win20 := by
  apply (claim8_priority_order win20 ⟨12, 0⟩ ⟨12, 0⟩).2.2.2.1
  · norm_num
  · norm_num [win20, check_vwap_pullback]
  · norm_num [win20, barA, barB, check_failed_auction, tailN]

/-- Claim C4: with the weekend and news gates open, at least 20 bars, and
the evaluator chain producing signal `s`: a long is suppressed (pipeline
returns no-signal) iff the fear-greed index is below 20, a short iff it is
above 80, and whenever a trade is emitted its direction is the evaluator's
direction — the veto never flips it. -/
theorem claim4_sentiment_veto (fg : ℤ) (df : List Bar) (now : TimeET) (s : Signal)
    (hlen : 20 ≤ df.length)
    (hpick : pick_signal df now = Except.ok (some s)) :
    (s.type = Direction.long →
      (check_setup false false fg (some df) now = Except.ok none ↔ fg < 20))
  ∧ (s.type = Direction.short →
      (check_setup false false fg (some df) now = Except.ok none ↔ 80 < fg))
  ∧ (∀ t, check_setup false false fg (some df) now = Except.ok (some t) →
      t.direction = s.type) := by
  have hnl : ¬ (df.length < 20) := not_lt.mpr hlen
  have hcs : check_setup false false fg (some df) now =
      Except.ok (sentiment_and_size fg s) := by
    simp [check_setup, hnl, hpick]
  refine ⟨?_, ?_, ?_⟩
  · intro hty
    rw [hcs]
    unfold sentiment_and_size
    rw [hty]
    by_cases h19 : fg < 20
    · simp [h19]
    · simp [h19]
  · intro hty
    rw [hcs]
    unfold sentiment_and_size
    rw [hty]
    by_cases h81 : 80 < fg
    · simp [h81]
    · simp [h81]
  · intro t ht
    rw [hcs] at ht
    unfold sentiment_and_size at ht
    split_ifs at ht
    · exact absurd ht (by simp)
    · exact absurd ht (by simp)
    · simp only [Except.ok.injEq, Option.some.injEq] at ht
      rw [← ht]

/-- Claim C4 (witness): on `win20` the breakout long fires; at index 19 the
pipeline is suppressed, at index 20 it is not. -/
theorem claim4_sentiment_veto_witness :
    check_setup false false 19 (some win20) ⟨12, 0⟩ = Except.ok none
  ∧ check_setup false false 20 (some win20) ⟨12, 0⟩ ≠ Except.ok none := by
  have hpick : pick_signal win20 ⟨12, 0⟩ = Except.ok (some sigBrk) := by
    norm_num [win20, barA, barB, sigBrk, pick_signal, first_some, check_vwap_pullback,
      check_failed_auction, check_breakout, tailN, lastD, closes, volumes, highs, lows,
      mean, listMax, listMin]
  have hlen : 20 ≤ win20.length := by norm_num [win20]
  constructor
  · exact ((claim4_sentiment_veto 19 win20 ⟨12, 0⟩ sigBrk hlen hpick).1 rfl).mpr (by norm_num)
  · intro hc
    have h20 := ((claim4_sentiment_veto 20 win20 ⟨12, 0⟩ sigBrk hlen hpick).1 rfl).mp hc
    omega

/-- Claim C3 (counterexample): the window `dfC3` satisfies the claim's
wording of the long conditions — close 5 bars ago above the VWAP, prior
close at/below the VWAP, current volume above the trailing 20-bar average —
yet the evaluator returns no signal: the code requires the current close
at/below the VWAP with the prior close above it. -/
theorem claim3_counterexample :
    vwap_long_per_claim dfC3 = true ∧ 30 ≤ dfC3.length ∧
    check_vwap_pullback dfC3 = none := by
  refine ⟨?_, by norm_num [dfC3], ?_⟩
  · norm_num [dfC3, baseBar, barC26, barC29x, barC30x, vwap_long_per_claim, calculate_vwap,
      volumes, closes, nth_from_end, lastD, mean, tailN]
  · norm_num [dfC3, baseBar, barC26, barC29x, barC30x, check_vwap_pullback, calculate_vwap,
      volumes, closes, nth_from_end, lastD, mean, tailN, listMax, listMin, lows, highs]

/-- Claim C3 (amended): over windows of at least 30 bars with nonzero total
volume (VWAP defined), the evaluator signals long exactly when the close 5
bars back is above the VWAP, the current close is at or below it while the
previous close is still above it, and the current volume exceeds the
trailing 20-bar average — mirrored for short; the emitted price is the
current close and the stop the 10-bar low (long) or 10-bar high (short). -/
theorem claim3_vwap_characterization (df : List Bar) (v : ℚ)
    (hlen : 30 ≤ df.length) (hv : calculate_vwap df = some v) :
    ((∃ s, check_vwap_pullback df = some s ∧ s.type = Direction.long) ↔
      (nth_from_end (closes df) 5 > v ∧ lastD (closes df) ≤ v ∧
       nth_from_end (closes df) 2 > v ∧ lastD (volumes df) > mean (tailN 20 (volumes df))))
  ∧ ((∃ s, check_vwap_pullback df = some s ∧ s.type = Direction.short) ↔
      (nth_from_end (closes df) 5 < v ∧ lastD (closes df) ≥ v ∧
       nth_from_end (closes df) 2 < v ∧ lastD (volumes df) > mean (tailN 20 (volumes df))))
  ∧ (∀ s, check_vwap_pullback df = some s →
      s.price = lastD (closes df) ∧
      (s.type = Direction.long → s.stop = listMin (tailN 10 (lows df))) ∧
      (s.type = Direction.short → s.stop = listMax (tailN 10 (highs df)))) := by
  have hnl : ¬ (df.length < 30) := not_lt.mpr hlen
  have hcv : check_vwap_pullback df =
      (if nth_from_end (closes df) 5 > v ∧ lastD (closes df) ≤ v ∧
          nth_from_end (closes df) 2 > v ∧ lastD (volumes df) > mean (tailN 20 (volumes df)) then
        some ⟨Direction.long, lastD (closes df), listMin (tailN 10 (lows df)), "VWAP"⟩
      else if nth_from_end (closes df) 5 < v ∧ lastD (closes df) ≥ v ∧
          nth_from_end (closes df) 2 < v ∧ lastD (volumes df) > mean (tailN 20 (volumes df)) then
        some ⟨Direction.short, lastD (closes df), listMax (tailN 10 (highs df)), "VWAP"⟩
      else none) := by
    unfold check_vwap_pullback
    rw [if_neg hnl, hv]
  refine ⟨?_, ?_, ?_⟩
  · rw [hcv]
    split_ifs with h1 h2
    · simp [h1]
    · simp [h1]
    · simp [h1]
  · rw [hcv]
    split_ifs with h1 h2
    · have hx : ¬ (nth_from_end (closes df) 5 < v) := by
        push_neg
        exact le_of_lt h1.1
      simp [hx]
    · simp [h2]
    · simp [h2]
  · intro s hs
    rw [hcv] at hs
    split_ifs at hs with h1 h2
    · simp only [Option.some.injEq] at hs
      rw [← hs]
      exact ⟨rfl, fun _ => rfl, fun hty => absurd hty (by simp)⟩
    · simp only [Option.some.injEq] at hs
      rw [← hs]
      exact ⟨rfl, fun hty => absurd hty (by simp), fun _ => rfl⟩

/-- Claim C3 (witness): the amended characterization instantiated at
`dfC3w`, whose VWAP is exactly 100, produces a long signal. -/
theorem claim3_vwap_characterization_witness :
    ∃ s, check_vwap_pullback dfC3w = some s ∧ s.type = Direction.long := by
  have hv : calculate_vwap dfC3w = some 100 := by
    norm_num [dfC3w, baseBar, barC26, barC30w, calculate_vwap, volumes]
  apply ((claim3_vwap_characterization dfC3w 100 (by norm_num [dfC3w]) hv).1).mpr
  refine ⟨?_, ?_, ?_, ?_⟩
  · norm_num [dfC3w, baseBar, barC26, barC30w, nth_from_end, closes]
  · norm_num [dfC3w, baseBar, barC26, barC30w, lastD, closes]
  · norm_num [dfC3w, baseBar, barC26, barC30w, nth_from_end, closes]
  · norm_num [dfC3w, baseBar, barC26, barC30w, lastD, volumes, mean, tailN]

end FuturesBot
